import Mathlib

/-!
Verification development for the Waveshare 2.13" B V4 e-paper driver
(`src/epd2in13b_v4/mod.rs`).  The driver is embedded shallowly: every
public operation is a pure Lean function from the driver state (its only
mutable field is the background color) to the list of transport
operations it issues, the successor state, and an outcome (normal
return, assertion failure, or `unimplemented`).  Transport operations
are recorded as structured events exactly at the granularity at which
`mod.rs` calls into its `DisplayInterface`; command payloads that are
serialized by the separate command codec module are recorded as their
structured parameter values, since only the driver module is being
verified and the codec's bit layout is out of scope.
-/

namespace Epd2in13bV4

/-- Panel width in pixels, `WIDTH` in the source. -/
def WIDTH : Nat := 122

/-- Panel height in pixels, `HEIGHT` in the source. -/
def HEIGHT : Nat := 250

/-- Number of vertical chunks used by the buffered path, `BUFFER` in the source. -/
def BUFFER : Nat := 4

/-- Modelled from the spec: `buffer_len` lives in the crate root, which is not
among the provided sources; the spec fixes the plane byte length as
ceil(width/8) × height (1 bit per pixel, byte-packed along rows). -/
def buffer_len (width height : Nat) : Nat := ((width + 7) / 8) * height

/-- Three-valued pixel color domain, `TriColor` in the crate's color module. -/
inductive TriColor where
  | Black
  | White
  | Chromatic
deriving DecidableEq

/-- Modelled from the spec: `TriColor::get_byte_value` lives in the crate's
color module, which is not among the provided sources; the spec's fill-byte
table fixes Black as all-bits-clear 0x00 and White as all-bits-set 0xFF, and
a set chromatic bit as 0xFF. -/
def TriColor.get_byte_value : TriColor → Nat
  | .Black => 0x00
  | .White => 0xFF
  | .Chromatic => 0xFF

/-- Two-valued panel-internal color domain, `Color` in the crate's color
module, used inside per-chunk sub-buffers. -/
inductive Color where
  | Black
  | White
deriving DecidableEq

/-- Modelled from the spec: `Color::get_byte_value` lives in the crate's color
module, which is not among the provided sources; the spec fixes 0xFF as
all-bits-set (White) and 0x00 as all-bits-clear (Black). -/
def Color.get_byte_value : Color → Nat
  | .Black => 0x00
  | .White => 0xFF

/-- Default background color, `DEFAULT_BACKGROUND_COLOR` in the source. -/
def DEFAULT_BACKGROUND_COLOR : TriColor := TriColor.White

/-- Busy-polarity flag handed to the transport's idle-wait,
`IS_BUSY_LOW` in the source (line 120): it is `false` for this panel. -/
def IS_BUSY_LOW : Bool := false

/-- Controller commands referenced by the driver module.  The codec enum
itself lives in the command module; only the names the driver issues are
modelled, and their wire bytes are out of scope. -/
inductive Command where
  | SwReset
  | DriverOutputControl
  | DataEntryModeSetting
  | SetRamXAddressStartEndPosition
  | SetRamYAddressStartEndPosition
  | SetRamXAddressCounter
  | SetRamYAddressCounter
  | BorderWaveformControl
  | WriteVcomRegister
  | GateDrivingVoltageCtrl
  | SourceDrivingVoltageCtrl
  | DisplayUpdateControl1
  | WriteRam
  | WriteRamRed
  | MasterActivation
  | DeepSleepMode
deriving DecidableEq

/-- Driver-output configuration, `DriverOutput` in the command module;
fields as constructed by the driver. -/
structure DriverOutput where
  scan_is_linear : Bool
  scan_g0_is_first : Bool
  scan_dir_incr : Bool
  width : Nat
deriving DecidableEq

/-- Modelled from the spec: data-entry increment mode variants of the command
module; only the variant referenced by the driver is modelled. -/
inductive DataEntryModeIncr where
  | XIncrYIncr
deriving DecidableEq

/-- Modelled from the spec: data-entry direction variants of the command
module; only the variant referenced by the driver is modelled. -/
inductive DataEntryModeDir where
  | XDir
deriving DecidableEq

/-- Modelled from the spec: border-waveform VBD source variants of the command
module; only the variant referenced by the driver is modelled. -/
inductive BorderWaveFormVbd where
  | Gs
deriving DecidableEq

/-- Modelled from the spec: border-waveform fixed-level variants of the
command module; only the variant referenced by the driver is modelled. -/
inductive BorderWaveFormFixLevel where
  | Vss
deriving DecidableEq

/-- Modelled from the spec: border-waveform GS-transition variants of the
command module; only the variant referenced by the driver is modelled. -/
inductive BorderWaveFormGs where
  | Lut3
deriving DecidableEq

/-- Border-waveform configuration, `BorderWaveForm` in the command module. -/
structure BorderWaveForm where
  vbd : BorderWaveFormVbd
  fix_level : BorderWaveFormFixLevel
  gs_trans : BorderWaveFormGs
deriving DecidableEq

/-- Modelled from the spec: RAM option variants of the command module; only
the variant referenced by the driver is modelled. -/
inductive RamOption where
  | Normal
deriving DecidableEq

/-- Display-update control, `DisplayUpdateControl` in the command module. -/
structure DisplayUpdateControl where
  red_ram_option : RamOption
  bw_ram_option : RamOption
  source_output_mode : Bool
deriving DecidableEq

/-- Modelled from the spec: deep-sleep mode variants of the command module;
only the variant referenced by the driver is modelled. -/
inductive DeepSleepMode where
  | Normal
deriving DecidableEq

/-- Modelled from the spec: LUT refresh-rate selector of the traits module,
which is not among the provided sources. -/
inductive RefreshLut where
  | Full
  | Quick
deriving DecidableEq

/-- A command payload as the driver hands it to `cmd_with_data`.  Payloads
whose bytes the driver module computes itself are recorded as raw bytes;
payloads serialized by the command codec are recorded as their structured
parameter value. -/
inductive Payload where
  | raw (bytes : List Nat)
  | driverOutput (o : DriverOutput)
  | dataEntry (incr : DataEntryModeIncr) (dir : DataEntryModeDir)
  | borderWaveform (b : BorderWaveForm)
  | displayUpdateCtrl (d : DisplayUpdateControl)
  | deepSleep (m : DeepSleepMode)
deriving DecidableEq

/-- One transport operation, at the granularity of the driver's calls into
its `DisplayInterface`. -/
inductive Ev where
  | reset (highUs lowUs : Nat)
  | cmd (c : Command)
  | cmdData (c : Command) (p : Payload)
  | data (bytes : List Nat)
  | dataWith (bytes : List Nat)
  | dataXTimes (val : Nat) (count : Nat)
  | waitIdle (isBusyLow : Bool)
deriving DecidableEq

/-- Outcome of a driver operation: normal return, a failed `assert`, or an
`unimplemented` fatal stop. -/
inductive Outcome where
  | ok
  | assertFail
  | unimplemented
deriving DecidableEq

/-- Driver state: the only mutable field of `Epd2in13b` besides the owned
transport handles is the background color. -/
structure Epd where
  background_color : TriColor
deriving DecidableEq

/-- Trace of `wait_until_idle`: a single transport idle-wait with the
panel's `IS_BUSY_LOW` flag. -/
def wait_until_idle : List Ev := [Ev.waitIdle IS_BUSY_LOW]

/-- Trace of `set_ram_area`: X start/end in 8-pixel units, then Y start/end
as little-endian byte pairs, with `as u8` truncation. -/
def set_ram_area (start_x start_y end_x end_y : Nat) : List Ev :=
  [Ev.cmdData .SetRamXAddressStartEndPosition
      (.raw [(start_x >>> 3) % 256, (end_x >>> 3) % 256]),
   Ev.cmdData .SetRamYAddressStartEndPosition
      (.raw [start_y % 256, (start_y >>> 8) % 256, end_y % 256, (end_y >>> 8) % 256])]

/-- Trace of `set_ram_address_counters`: an idle-wait first, then the X and Y
counter payloads. -/
def set_ram_address_counters (x y : Nat) : List Ev :=
  wait_until_idle ++
  [Ev.cmdData .SetRamXAddressCounter (.raw [(x >>> 3) % 256]),
   Ev.cmdData .SetRamYAddressCounter (.raw [y % 256, (y >>> 8) % 256])]

/-- Trace of `init`: the full initialization sequence of the driver. -/
def init : List Ev :=
  [Ev.reset 10000 10000] ++
  wait_until_idle ++
  [Ev.cmd .SwReset] ++
  wait_until_idle ++
  [Ev.cmdData .DriverOutputControl
      (.driverOutput ⟨true, true, true, (HEIGHT - 1) % 65536⟩),
   Ev.cmdData .DataEntryModeSetting (.dataEntry .XIncrYIncr .XDir)] ++
  set_ram_area 0 0 (WIDTH - 1) (HEIGHT - 1) ++
  set_ram_address_counters 0 0 ++
  [Ev.cmdData .BorderWaveformControl (.borderWaveform ⟨.Gs, .Vss, .Lut3⟩),
   Ev.cmdData .WriteVcomRegister (.raw [0x36]),
   Ev.cmdData .GateDrivingVoltageCtrl (.raw [0x17]),
   Ev.cmdData .SourceDrivingVoltageCtrl (.raw [0x41, 0x00, 0x32]),
   Ev.cmdData .DisplayUpdateControl1 (.displayUpdateCtrl ⟨.Normal, .Normal, true⟩)] ++
  wait_until_idle

/-- `new`: constructs the driver with the default background color and runs
`init`; returns the issued trace and the constructed state. -/
def new : List Ev × Epd :=
  (init, ⟨DEFAULT_BACKGROUND_COLOR⟩)

/-- `wake_up`: re-runs `init`. -/
def wake_up (s : Epd) : List Ev × Epd :=
  (init, s)

/-- `sleep`: writes the deep-sleep-mode command with mode Normal. -/
def sleep (s : Epd) : List Ev × Epd :=
  ([Ev.cmdData .DeepSleepMode (.deepSleep .Normal)], s)

/-- `display_frame`: master activation, then idle-wait. -/
def display_frame (s : Epd) : List Ev × Epd :=
  ([Ev.cmd .MasterActivation] ++ wait_until_idle, s)

/-- `update_frame`: asserts the buffer length equals the full plane length,
writes it to the primary RAM, then fills the secondary RAM with the black
byte value repeated for the plane length.  A failed assertion issues no
transport operation. -/
def update_frame (s : Epd) (buffer : List Nat) : List Ev × Epd × Outcome :=
  if buffer.length = buffer_len WIDTH HEIGHT then
    ([Ev.cmdData .WriteRam (.raw buffer),
      Ev.cmd .WriteRamRed,
      Ev.dataXTimes TriColor.Black.get_byte_value (buffer_len WIDTH HEIGHT)],
     s, .ok)
  else
    ([], s, .assertFail)

/-- `update_partial_frame`: unconditionally `unimplemented`. -/
def update_partial_frame (s : Epd) (_buffer : List Nat) (_x _y _width _height : Nat) :
    List Ev × Epd × Outcome :=
  ([], s, .unimplemented)

/-- `set_lut`: unconditionally `unimplemented`. -/
def set_lut (s : Epd) (_refresh_rate : Option RefreshLut) : List Ev × Epd × Outcome :=
  ([], s, .unimplemented)

/-- `update_achromatic_frame`: primary RAM-select, then the buffer bytes. -/
def update_achromatic_frame (s : Epd) (black : List Nat) : List Ev × Epd :=
  ([Ev.cmd .WriteRam, Ev.data black], s)

/-- `update_chromatic_frame`: secondary RAM-select, then the buffer bytes. -/
def update_chromatic_frame (s : Epd) (chromatic : List Nat) : List Ev × Epd :=
  ([Ev.cmd .WriteRamRed, Ev.data chromatic], s)

/-- `update_color_frame`: achromatic write, then chromatic write. -/
def update_color_frame (s : Epd) (black chromatic : List Nat) : List Ev × Epd :=
  let (t1, s1) := update_achromatic_frame s black
  let (t2, s2) := update_chromatic_frame s1 chromatic
  (t1 ++ t2, s2)

/-- `update_achromatic_frame_with`: primary RAM-select, then the generated
bytes.  Modelled from the spec: the transport's lazy variant streams the
generator's bytes in index order for the given length. -/
def update_achromatic_frame_with (s : Epd) (black : Nat → Nat) (len : Nat) :
    List Ev × Epd :=
  ([Ev.cmd .WriteRam, Ev.dataWith ((List.range len).map black)], s)

/-- `update_chromatic_frame_with`: secondary RAM-select, then the generated
bytes.  Modelled from the spec: the transport's lazy variant streams the
generator's bytes in index order for the given length. -/
def update_chromatic_frame_with (s : Epd) (chromatic : Nat → Nat) (len : Nat) :
    List Ev × Epd :=
  ([Ev.cmd .WriteRamRed, Ev.dataWith ((List.range len).map chromatic)], s)

/-- `update_color_frame_with`: lazy achromatic write, then lazy chromatic
write. -/
def update_color_frame_with (s : Epd) (black chromatic : Nat → Nat)
    (black_len chromatic_len : Nat) : List Ev × Epd :=
  let (t1, s1) := update_achromatic_frame_with s black black_len
  let (t2, s2) := update_chromatic_frame_with s1 chromatic chromatic_len
  (t1 ++ t2, s2)

/-- `update_and_display_frame`: `update_frame` then `display_frame`; a failed
assertion in `update_frame` aborts before activation. -/
def update_and_display_frame (s : Epd) (buffer : List Nat) : List Ev × Epd × Outcome :=
  match update_frame s buffer with
  | (t1, s1, .ok) =>
      let (t2, s2) := display_frame s1
      (t1 ++ t2, s2, .ok)
  | r => r

/-- `clear_achromatic_frame`: primary RAM-select, then a full-plane repeated
fill chosen from the background color. -/
def clear_achromatic_frame (s : Epd) : List Ev × Epd :=
  match s.background_color with
  | .White =>
      ([Ev.cmd .WriteRam, Ev.dataXTimes 0xFF (buffer_len WIDTH HEIGHT)], s)
  | .Chromatic =>
      ([Ev.cmd .WriteRam, Ev.dataXTimes 0xFF (buffer_len WIDTH HEIGHT)], s)
  | .Black =>
      ([Ev.cmd .WriteRam, Ev.dataXTimes 0x00 (buffer_len WIDTH HEIGHT)], s)

/-- `clear_chromatic_frame`: as in the source, every branch issues the
primary RAM-select `WriteRam` (not `WriteRamRed`), then a full-plane
repeated fill chosen from the background color. -/
def clear_chromatic_frame (s : Epd) : List Ev × Epd :=
  match s.background_color with
  | .White =>
      ([Ev.cmd .WriteRam, Ev.dataXTimes 0x00 (buffer_len WIDTH HEIGHT)], s)
  | .Chromatic =>
      ([Ev.cmd .WriteRam, Ev.dataXTimes 0xFF (buffer_len WIDTH HEIGHT)], s)
  | .Black =>
      ([Ev.cmd .WriteRam, Ev.dataXTimes 0x00 (buffer_len WIDTH HEIGHT)], s)

/-- `clear_frame`: achromatic clear, then chromatic clear. -/
def clear_frame (s : Epd) : List Ev × Epd :=
  let (t1, s1) := clear_achromatic_frame s
  let (t2, s2) := clear_chromatic_frame s1
  (t1 ++ t2, s2)

/-- `set_background_color`: stores the new background color; issues no
transport operation. -/
def set_background_color (_s : Epd) (c : TriColor) : List Ev × Epd :=
  ([], ⟨c⟩)

/-- `background_color`: returns the stored background color. -/
def background_color (s : Epd) : TriColor :=
  s.background_color

/-- Type-safe chunk of the display for the buffered path, `Chunk` in the
source. -/
inductive Chunk where
  | Buf1
  | Buf2
  | Buf3
  | Buf4
deriving DecidableEq

/-- `Chunk::to_zero_indexed`. -/
def Chunk.to_zero_indexed : Chunk → Nat
  | .Buf1 => 0
  | .Buf2 => 1
  | .Buf3 => 2
  | .Buf4 => 3

/-- `Chunk::from_zero_indexed`; the source panics on an index of 4 or more,
embedded as `none`. -/
def Chunk.from_zero_indexed (i : Nat) : Option Chunk :=
  match i with
  | 0 => some .Buf1
  | 1 => some .Buf2
  | 2 => some .Buf3
  | 3 => some .Buf4
  | _ => none

/-- Byte length of one chunk sub-buffer.  Modelled from the spec: the
sub-buffer type `BufferMonoDisplay2in13b` is instantiated from the graphics
module, which is not among the provided sources, at width × (height /
number-of-chunks) pixels, with the spec's buffer-length formula. -/
def CHUNK_BUF_LEN : Nat := buffer_len WIDTH (HEIGHT / BUFFER)

/-- A chunk sub-buffer's byte contents. -/
abbrev MonoBuffer := List Nat

/-- Modelled from the spec: a freshly allocated/cleared scratch sub-buffer,
`BufferMonoDisplay2in13b::default()`; the graphics module is not among the
provided sources, and the spec fixes only that the buffer is fresh and
cleared, taken here as the all-bits-set white fill. -/
def defaultMonoBuffer : MonoBuffer := List.replicate CHUNK_BUF_LEN 0xFF

/-- Modelled from the spec: `buffer.clear(c)` of the graphics module fills
the sub-buffer with the byte value of `c`. -/
def clearMono (c : Color) : MonoBuffer := List.replicate CHUNK_BUF_LEN c.get_byte_value

/-- A chunk population callback.  The source takes an `FnMut` closure
returning `Result<Option<()>, Infallible>`; the mutable capture state is
made explicit as `σ`, and the infallible error case is dropped since
`Infallible` is uninhabited. -/
def CB (σ : Type) : Type := σ → MonoBuffer → Chunk → σ × MonoBuffer × Option Unit

/-- One iteration of a buffered chunk loop: run the callback on the current
sub-buffer, and if it returns `none` replace the sub-buffer with `fill`.
Returns the callback state and the sub-buffer that is streamed. -/
def runChunk {σ : Type} (cb : CB σ) (fill : MonoBuffer) (st : σ) (buf : MonoBuffer)
    (ch : Chunk) : σ × MonoBuffer :=
  ((cb st buf ch).1,
   if (cb st buf ch).2.2.isNone then fill else (cb st buf ch).2.1)

/-- The achromatic chunk loop: each iteration allocates a fresh default
sub-buffer, runs the callback on it (falling back to a White fill), and
streams the result.  Returns the issued data events, the invocation log
(chunk argument and sub-buffer passed in, in call order), the final
callback state, and the outcome (`assertFail` for the panic of
`Chunk::from_zero_indexed` on an invalid index). -/
def achromaticChunkLoop {σ : Type} (cb : CB σ) :
    List Nat → σ → List Ev × List (Chunk × MonoBuffer) × σ × Outcome
  | [], st => ([], [], st, .ok)
  | i :: rest, st =>
      match Chunk.from_zero_indexed i with
      | none => ([], [], st, .assertFail)
      | some ch =>
          let r1 := runChunk cb (clearMono .White) st defaultMonoBuffer ch
          let k := achromaticChunkLoop cb rest r1.1
          (Ev.data r1.2 :: k.1, (ch, defaultMonoBuffer) :: k.2.1, k.2.2.1, k.2.2.2)

/-- The chromatic chunk loop: a single sub-buffer is threaded through all
iterations; the callback's fallback fill is Black.  Returns the issued data
events, the invocation log, the final callback state, and the outcome. -/
def chromaticChunkLoop {σ : Type} (cb : CB σ) :
    List Nat → σ → MonoBuffer → List Ev × List (Chunk × MonoBuffer) × σ × Outcome
  | [], st, _ => ([], [], st, .ok)
  | i :: rest, st, buf =>
      match Chunk.from_zero_indexed i with
      | none => ([], [], st, .assertFail)
      | some ch =>
          let r1 := runChunk cb (clearMono .Black) st buf ch
          let k := chromaticChunkLoop cb rest r1.1 r1.2
          (Ev.data r1.2 :: k.1, (ch, buf) :: k.2.1, k.2.2.1, k.2.2.2)

/-- `update_achromatic_buffered`: primary RAM-select, then the achromatic
chunk loop over indices 0..BUFFER, allocating a fresh default sub-buffer in
every iteration. -/
def update_achromatic_buffered {σ : Type} (s : Epd) (st : σ) (cb : CB σ) :
    List Ev × List (Chunk × MonoBuffer) × σ × Epd × Outcome :=
  let r := achromaticChunkLoop cb (List.range BUFFER) st
  (Ev.cmd .WriteRam :: r.1, r.2.1, r.2.2.1, s, r.2.2.2)

/-- `update_chromatic_buffered`: secondary RAM-select, then the chromatic
chunk loop over indices 0..BUFFER reusing one sub-buffer allocated before
the loop; on normal completion of the loop the driver itself issues master
activation and an idle-wait. -/
def update_chromatic_buffered {σ : Type} (s : Epd) (st : σ) (cb : CB σ) :
    List Ev × List (Chunk × MonoBuffer) × σ × Epd × Outcome :=
  let r := chromaticChunkLoop cb (List.range BUFFER) st defaultMonoBuffer
  match r.2.2.2 with
  | .ok =>
      (Ev.cmd .WriteRamRed :: r.1 ++ [Ev.cmd .MasterActivation] ++ wait_until_idle,
       r.2.1, r.2.2.1, s, .ok)
  | oc => (Ev.cmd .WriteRamRed :: r.1, r.2.1, r.2.2.1, s, oc)

/-- `update_frame_buffered`: the achromatic buffered pass, then the
chromatic buffered pass. -/
def update_frame_buffered {σ τ : Type} (s : Epd) (stm : σ) (mono_buffers : CB σ)
    (stc : τ) (colored_buffers : CB τ) :
    List Ev × Epd × Outcome :=
  let a := update_achromatic_buffered s stm mono_buffers
  match a.2.2.2.2 with
  | .ok =>
      let c := update_chromatic_buffered a.2.2.2.1 stc colored_buffers
      (a.1 ++ c.1, c.2.2.2.1, c.2.2.2.2)
  | oc => (a.1, a.2.2.2.1, oc)

/-- Result of the first achromatic chunk invocation: final callback state
and streamed sub-buffer. -/
def achO1 {σ : Type} (st : σ) (cb : CB σ) : σ × MonoBuffer :=
  runChunk cb (clearMono .White) st defaultMonoBuffer .Buf1

/-- Result of the second achromatic chunk invocation. -/
def achO2 {σ : Type} (st : σ) (cb : CB σ) : σ × MonoBuffer :=
  runChunk cb (clearMono .White) (achO1 st cb).1 defaultMonoBuffer .Buf2

/-- Result of the third achromatic chunk invocation. -/
def achO3 {σ : Type} (st : σ) (cb : CB σ) : σ × MonoBuffer :=
  runChunk cb (clearMono .White) (achO2 st cb).1 defaultMonoBuffer .Buf3

/-- Result of the fourth achromatic chunk invocation. -/
def achO4 {σ : Type} (st : σ) (cb : CB σ) : σ × MonoBuffer :=
  runChunk cb (clearMono .White) (achO3 st cb).1 defaultMonoBuffer .Buf4

/-- Result of the first chromatic chunk invocation: the scratch sub-buffer
passed in is the one allocated before the loop. -/
def chrO1 {σ : Type} (st : σ) (cb : CB σ) : σ × MonoBuffer :=
  runChunk cb (clearMono .Black) st defaultMonoBuffer .Buf1

/-- Result of the second chromatic chunk invocation: the scratch sub-buffer
passed in is the one streamed for the first chunk (reused, not fresh). -/
def chrO2 {σ : Type} (st : σ) (cb : CB σ) : σ × MonoBuffer :=
  runChunk cb (clearMono .Black) (chrO1 st cb).1 (chrO1 st cb).2 .Buf2

/-- Result of the third chromatic chunk invocation. -/
def chrO3 {σ : Type} (st : σ) (cb : CB σ) : σ × MonoBuffer :=
  runChunk cb (clearMono .Black) (chrO2 st cb).1 (chrO2 st cb).2 .Buf3

/-- Result of the fourth chromatic chunk invocation. -/
def chrO4 {σ : Type} (st : σ) (cb : CB σ) : σ × MonoBuffer :=
  runChunk cb (clearMono .Black) (chrO3 st cb).1 (chrO3 st cb).2 .Buf4

/-- A concrete stateless chunk callback that overwrites the whole scratch
sub-buffer with 0x55 and reports success. -/
def cbFill55 : CB Unit :=
  fun st _ _ => (st, List.replicate CHUNK_BUF_LEN 0x55, some ())

/-- C1 counterexample: at the concrete driver state with a White background,
the trace of `display_frame` is one master-activation command followed by
one idle-wait whose busy-polarity flag is `false`, so no idle-wait with
active-low polarity (flag `true`) occurs in it, contrary to the claim. -/
theorem display_frame_no_active_low_wait :
    (display_frame ⟨TriColor.White⟩).1 = [Ev.cmd .MasterActivation, Ev.waitIdle false] ∧
    Ev.waitIdle true ∉ (display_frame ⟨TriColor.White⟩).1 := by
  decide

/-- C1 (amended): for every driver state, `display_frame` issues exactly one
master-activation command followed by exactly one idle-wait performed with
the panel's `IS_BUSY_LOW` flag, which is `false` (busy = logic-high, idle =
logic-low), and performs no other transport operation and no state change. -/
theorem display_frame_trace_spec :
    ∀ s : Epd,
      display_frame s = ([Ev.cmd .MasterActivation, Ev.waitIdle IS_BUSY_LOW], s) ∧
      IS_BUSY_LOW = false := by
  intro s
  exact ⟨rfl, rfl⟩

/-- C2: evaluation of `clear_frame` at every background color.  The fill
bytes follow the claimed table (White: 0xFF then 0x00; Chromatic: 0xFF then
0xFF; Black: 0x00 then 0x00, each over the full 4000-byte plane), but both
fills are preceded by the primary RAM-select `WriteRam`: the secondary
RAM-select `WriteRamRed` never appears, because `clear_chromatic_frame`
issues `WriteRam` in all of its branches. -/
theorem clear_frame_uses_primary_ram_select_twice :
    (clear_frame ⟨TriColor.White⟩).1 =
      [Ev.cmd .WriteRam, Ev.dataXTimes 0xFF 4000,
       Ev.cmd .WriteRam, Ev.dataXTimes 0x00 4000] ∧
    (clear_frame ⟨TriColor.Chromatic⟩).1 =
      [Ev.cmd .WriteRam, Ev.dataXTimes 0xFF 4000,
       Ev.cmd .WriteRam, Ev.dataXTimes 0xFF 4000] ∧
    (clear_frame ⟨TriColor.Black⟩).1 =
      [Ev.cmd .WriteRam, Ev.dataXTimes 0x00 4000,
       Ev.cmd .WriteRam, Ev.dataXTimes 0x00 4000] ∧
    Ev.cmd .WriteRamRed ∉ (clear_frame ⟨TriColor.White⟩).1 := by
  decide

/-- C4: `update_frame` with a buffer of exactly 4000 bytes writes the buffer
verbatim to the primary RAM plane and then fills the secondary plane with
the black byte 0x00 repeated 4000 times, returning normally; with a buffer
of any other length it fails its assertion before issuing any transport
operation. -/
theorem update_frame_length_contract :
    ∀ (s : Epd) (buffer : List Nat),
      (buffer.length = 4000 →
        update_frame s buffer =
          ([Ev.cmdData .WriteRam (.raw buffer), Ev.cmd .WriteRamRed,
            Ev.dataXTimes 0x00 4000], s, .ok)) ∧
      (buffer.length ≠ 4000 →
        update_frame s buffer = ([], s, .assertFail)) := by
  intro s buffer
  have hlen : buffer_len WIDTH HEIGHT = 4000 := rfl
  constructor
  · intro h
    unfold update_frame
    rw [hlen, if_pos h]
    rfl
  · intro h
    unfold update_frame
    rw [hlen, if_neg h]

/-- C4 witness: a concrete 4000-byte buffer succeeds with the claimed trace,
and a concrete 1-byte buffer fails the assertion with no transport write. -/
theorem update_frame_length_contract_witness :
    update_frame ⟨TriColor.White⟩ (List.replicate 4000 0xAB) =
      ([Ev.cmdData .WriteRam (.raw (List.replicate 4000 0xAB)), Ev.cmd .WriteRamRed,
        Ev.dataXTimes 0x00 4000], ⟨TriColor.White⟩, .ok) ∧
    update_frame ⟨TriColor.White⟩ [0x12] = ([], ⟨TriColor.White⟩, .assertFail) :=
  ⟨(update_frame_length_contract ⟨TriColor.White⟩ (List.replicate 4000 0xAB)).1
      (by rw [List.length_replicate]),
   (update_frame_length_contract ⟨TriColor.White⟩ [0x12]).2 (by decide)⟩

/-- C5: the initialization sequence is exactly, in order: hardware reset
with two 10000 microsecond holds, idle-wait, software reset, idle-wait,
driver-output configuration with scan span 249, data-entry mode with X/Y
auto-increment and X primary, RAM X window [0, 15] (8-pixel units, 15 =
(122 − 1) >> 3), RAM Y window [0, 249] as little-endian byte pairs,
idle-wait, RAM X counter 0, RAM Y counter 0, border-waveform configuration
(Gs, Vss, Lut3), VCOM 0x36, gate driving voltage 0x17, source driving
voltage [0x41, 0x00, 0x32], display-update control (Normal, Normal,
source-output enabled), final idle-wait. -/
theorem init_sequence_spec :
    init =
      [Ev.reset 10000 10000,
       Ev.waitIdle false,
       Ev.cmd .SwReset,
       Ev.waitIdle false,
       Ev.cmdData .DriverOutputControl (.driverOutput ⟨true, true, true, 249⟩),
       Ev.cmdData .DataEntryModeSetting (.dataEntry .XIncrYIncr .XDir),
       Ev.cmdData .SetRamXAddressStartEndPosition (.raw [0, 15]),
       Ev.cmdData .SetRamYAddressStartEndPosition (.raw [0, 0, 249, 0]),
       Ev.waitIdle false,
       Ev.cmdData .SetRamXAddressCounter (.raw [0]),
       Ev.cmdData .SetRamYAddressCounter (.raw [0, 0]),
       Ev.cmdData .BorderWaveformControl (.borderWaveform ⟨.Gs, .Vss, .Lut3⟩),
       Ev.cmdData .WriteVcomRegister (.raw [0x36]),
       Ev.cmdData .GateDrivingVoltageCtrl (.raw [0x17]),
       Ev.cmdData .SourceDrivingVoltageCtrl (.raw [0x41, 0x00, 0x32]),
       Ev.cmdData .DisplayUpdateControl1 (.displayUpdateCtrl ⟨.Normal, .Normal, true⟩),
       Ev.waitIdle false] := by
  decide

/-- C6: for all driver states and byte slices of any lengths,
`update_color_frame` issues the primary RAM-select followed by the black
payload, then the secondary RAM-select followed by the chromatic payload,
with no length check, no RAM-window reconfiguration and no state change;
composing with `display_frame` appends exactly one master activation and
one idle-wait. -/
theorem update_color_frame_then_display_trace :
    ∀ (s : Epd) (black chromatic : List Nat),
      update_color_frame s black chromatic =
        ([Ev.cmd .WriteRam, Ev.data black, Ev.cmd .WriteRamRed, Ev.data chromatic], s) ∧
      (update_color_frame s black chromatic).1 ++
          (display_frame (update_color_frame s black chromatic).2).1 =
        [Ev.cmd .WriteRam, Ev.data black, Ev.cmd .WriteRamRed, Ev.data chromatic,
         Ev.cmd .MasterActivation, Ev.waitIdle false] := by
  intro s black chromatic
  exact ⟨rfl, rfl⟩

/-- C7: for every driver state and all arguments, `update_partial_frame` and
`set_lut` terminate with the `unimplemented` outcome, never returning
normally, and issue no transport operation before failing. -/
theorem unsupported_operations_spec :
    ∀ (s : Epd) (buffer : List Nat) (x y w h : Nat) (rr : Option RefreshLut),
      update_partial_frame s buffer x y w h = ([], s, .unimplemented) ∧
      set_lut s rr = ([], s, .unimplemented) := by
  intro s buffer x y w h rr
  exact ⟨rfl, rfl⟩

/-- C8: every chunk round-trips through its zero-indexed form; every index
below 4 round-trips through `Chunk`; every index of 4 or more is rejected
(the source panics, embedded as `none`). -/
theorem chunk_zero_indexed_roundtrip :
    (∀ c : Chunk, Chunk.from_zero_indexed c.to_zero_indexed = some c) ∧
    (∀ i : Nat, i < 4 → (Chunk.from_zero_indexed i).map Chunk.to_zero_indexed = some i) ∧
    (∀ i : Nat, 4 ≤ i → Chunk.from_zero_indexed i = none) := by
  refine ⟨?_, ?_, ?_⟩
  · intro c
    cases c <;> rfl
  · intro i hi
    interval_cases i <;> rfl
  · intro i hi
    obtain ⟨k, rfl⟩ := Nat.exists_eq_add_of_le hi
    rw [Nat.add_comm]
    rfl

/-- C8 witness: the round-trips at chunk Buf3 and index 2, and rejection of
the concrete index 7. -/
theorem chunk_zero_indexed_roundtrip_witness :
    Chunk.from_zero_indexed (Chunk.to_zero_indexed .Buf3) = some .Buf3 ∧
    (Chunk.from_zero_indexed 2).map Chunk.to_zero_indexed = some 2 ∧
    Chunk.from_zero_indexed 7 = none :=
  ⟨chunk_zero_indexed_roundtrip.1 .Buf3,
   chunk_zero_indexed_roundtrip.2.1 2 (by decide),
   chunk_zero_indexed_roundtrip.2.2 7 (by decide)⟩

/-- C9: for every driver state, the transport trace of `wake_up` is exactly
the trace of `init`, also from a state that has just slept, and the trace
performed at construction equals `init` as well. -/
theorem wake_up_replays_init :
    ∀ s : Epd,
      (wake_up s).1 = init ∧
      (wake_up ((sleep s).2)).1 = init ∧
      new.1 = init := by
  intro s
  exact ⟨rfl, rfl, rfl⟩

/-- C3 counterexample: with the concrete callback that overwrites the
scratch with 0x55 and reports success, the chromatic pass's second, third
and fourth invocations receive the 0x55-filled buffer reused from the
previous chunk, which differs from the freshly allocated/cleared scratch
sub-buffer the claim promises for every invocation. -/
theorem chromatic_buffered_scratch_not_fresh :
    (update_chromatic_buffered ⟨TriColor.White⟩ () cbFill55).2.1 =
      [(Chunk.Buf1, defaultMonoBuffer),
       (Chunk.Buf2, List.replicate CHUNK_BUF_LEN 0x55),
       (Chunk.Buf3, List.replicate CHUNK_BUF_LEN 0x55),
       (Chunk.Buf4, List.replicate CHUNK_BUF_LEN 0x55)] ∧
    List.replicate CHUNK_BUF_LEN 0x55 ≠ defaultMonoBuffer := by
  constructor
  · rfl
  · decide

/-- C3 (amended): for every callback and state, in each chunked pass the
single RAM-select command comes first and the callback is invoked exactly
once per chunk index in order 0, 1, 2, 3, each streamed sub-buffer sent to
the transport right after its invocation; in the achromatic pass every
invocation receives a freshly allocated default scratch sub-buffer, while
in the chromatic pass a single scratch sub-buffer is allocated before the
loop and each later invocation receives the sub-buffer streamed for the
previous chunk; the chromatic pass additionally ends with a
master-activation command followed by a busy-wait. -/
theorem buffered_passes_characterization :
    ∀ (σ : Type) (st : σ) (cb : CB σ) (s : Epd),
      update_achromatic_buffered s st cb =
        ([Ev.cmd .WriteRam,
          Ev.data (achO1 st cb).2, Ev.data (achO2 st cb).2,
          Ev.data (achO3 st cb).2, Ev.data (achO4 st cb).2],
         [(Chunk.Buf1, defaultMonoBuffer), (Chunk.Buf2, defaultMonoBuffer),
          (Chunk.Buf3, defaultMonoBuffer), (Chunk.Buf4, defaultMonoBuffer)],
         (achO4 st cb).1, s, .ok) ∧
      update_chromatic_buffered s st cb =
        ([Ev.cmd .WriteRamRed,
          Ev.data (chrO1 st cb).2, Ev.data (chrO2 st cb).2,
          Ev.data (chrO3 st cb).2, Ev.data (chrO4 st cb).2,
          Ev.cmd .MasterActivation, Ev.waitIdle false],
         [(Chunk.Buf1, defaultMonoBuffer), (Chunk.Buf2, (chrO1 st cb).2),
          (Chunk.Buf3, (chrO2 st cb).2), (Chunk.Buf4, (chrO3 st cb).2)],
         (chrO4 st cb).1, s, .ok) := by
  intro σ st cb s
  exact ⟨rfl, rfl⟩

/-- C10: the driver's stored background color starts as White at
construction, is read back unchanged by `background_color`, is set by
`set_background_color` with no transport operation, and is left unchanged
by every other operation of the driver. -/
theorem background_color_frame_conditions :
    new.2.background_color = TriColor.White ∧
    ∀ (s : Epd) (c : TriColor) (buffer black chromatic : List Nat)
      (f g : Nat → Nat) (l1 l2 x y w h : Nat) (rr : Option RefreshLut)
      (σ τ : Type) (stm : σ) (stc : τ) (cbm : CB σ) (cbc : CB τ),
      set_background_color s c = ([], ⟨c⟩) ∧
      background_color s = s.background_color ∧
      (wake_up s).2 = s ∧
      (sleep s).2 = s ∧
      (display_frame s).2 = s ∧
      (update_frame s buffer).2.1 = s ∧
      (update_and_display_frame s buffer).2.1 = s ∧
      (update_color_frame s black chromatic).2 = s ∧
      (update_achromatic_frame s black).2 = s ∧
      (update_chromatic_frame s chromatic).2 = s ∧
      (update_achromatic_frame_with s f l1).2 = s ∧
      (update_chromatic_frame_with s g l2).2 = s ∧
      (update_color_frame_with s f g l1 l2).2 = s ∧
      (clear_frame s).2 = s ∧
      (update_achromatic_buffered s stm cbm).2.2.2.1 = s ∧
      (update_chromatic_buffered s stc cbc).2.2.2.1 = s ∧
      (update_frame_buffered s stm cbm stc cbc).2.1 = s ∧
      (update_partial_frame s buffer x y w h).2.1 = s ∧
      (set_lut s rr).2.1 = s := by
  refine ⟨rfl, ?_⟩
  intro s c buffer black chromatic f g l1 l2 x y w h rr σ τ stm stc cbm cbc
  refine ⟨rfl, rfl, rfl, rfl, rfl, ?_, ?_, rfl, rfl, rfl, rfl, rfl, rfl, ?_,
    rfl, rfl, rfl, rfl, rfl⟩
  · unfold update_frame
    split <;> rfl
  · unfold update_and_display_frame update_frame
    by_cases hb : buffer.length = buffer_len WIDTH HEIGHT
    · rw [if_pos hb]
      rfl
    · rw [if_neg hb]
  · unfold clear_frame clear_achromatic_frame clear_chromatic_frame
    cases s with
    | mk bg => cases bg <;> rfl

end Epd2in13bV4
